import Mathlib

set_option linter.unusedVariables false

/-!
A shallow embedding of Pyrlang/Dist/in_connection.py: the incoming
distribution connection state machine, its length-prefixed framer, the
handshake packet handlers, the connected-stage control dispatch and the
outbound control encoding.

External collaborators of the module (the etf term codec, the md5 hash and
the random challenge draw) are parameters collected in an environment
record.  Side effects (socket sends, registry notifications through the
node singleton, error logging) are reified as a list of effects returned
by each handler.  Python exceptions are modelled by the error side of an
Except value; every handler of the source performs all of its reads that
can raise before its first field mutation or effect, so a pure
state-in/state-out embedding with Except is faithful.
-/

namespace Pyrlang

/-- Modelled from the spec: epmd.DIST_VSN (the epmd module is not under src);
spec section 6 fixes OUR distribution protocol version as a single integer,
originally 5. -/
def DIST_VSN : Nat := 5

/-- First element of a control term in a p message defines what it is. -/
def CONTROL_TERM_SEND : Int := 2

def CONTROL_TERM_REG_SEND : Int := 6

def CONTROL_TERM_MONITOR_P : Int := 19

def CONTROL_TERM_DEMONITOR_P : Int := 20

def CONTROL_TERM_MONITOR_P_EXIT : Int := 21

/-- Modelled from the spec: util.u16 (the util module is not under src) reads
an unsigned big-endian 16-bit integer at the given offset of a byte list. -/
def u16 (data : List Nat) (offset : Nat) : Nat :=
  ((data.drop offset).take 2).foldl (fun a b => a * 256 + b) 0

/-- Modelled from the spec: util.u32 reads an unsigned big-endian 32-bit
integer at the given offset of a byte list. -/
def u32 (data : List Nat) (offset : Nat) : Nat :=
  ((data.drop offset).take 4).foldl (fun a b => a * 256 + b) 0

/-- struct.pack of a big-endian 16-bit unsigned integer. -/
def be16 (n : Nat) : List Nat := [n / 256 % 256, n % 256]

/-- struct.pack of a big-endian 32-bit unsigned integer. -/
def be32 (n : Nat) : List Nat :=
  [n / 16777216 % 256, n / 65536 % 256, n / 256 % 256, n % 256]

/-- Python str of a non-negative integer, as ascii bytes. -/
def decimalBytes (n : Nat) : List Nat := (Nat.toDigits 10 n).map Char.toNat

/-- Python str applied to the stored challenge, as ascii bytes: str of None
is the four bytes of the text None, which is what the source would hash if
my_challenge_ were still unset. -/
def strBytes : Option Nat → List Nat
  | none => [78, 111, 110, 101]
  | some n => decimalBytes n

/-- Python exceptions the connection code can raise. -/
inductive PyExc where
  | indexError
  | valueError
  | distributionError
  | etfError
deriving DecidableEq, Repr

/-- External term format values, as far as the control envelope needs them. -/
inductive Term where
  | int (n : Int)
  | atom (name : List Nat)
  | tuple (elems : List Term)
  | pid (node : List Nat) (id serial creation : Nat)
  | ref (node : List Nat) (creation : Nat) (ids : List Nat)

/-- Calls into the node registry, Node.singleton in the source: the two
inbox_.put notifications and the three dispatch methods. -/
inductive RegistryCall where
  | nodeConnected (peer_name : List Nat)
  | nodeDisconnected (peer_name : Option (List Nat))
  | send (sender receiver : Term) (message : Option Term)
  | monitorProcess (origin target : Term)
  | demonitorProcess (origin target : Term)

/-- Reified side effects of the connection handlers. -/
inductive Effect where
  | sockSend (msg : List Nat)
  | registry (call : RegistryCall)
  | errorLog (msg : String)

/-- External collaborators of the connection, passed as parameters: the md5
hash, the etf codec (binary_to_term returns none where the source codec
would raise MalformedTerm) and the challenge drawn by random.random. -/
structure Env where
  md5 : List Nat → List Nat
  binary_to_term : List Nat → Option (Term × List Nat)
  term_to_binary : Term → List Nat
  rand_challenge : Nat

/-- The mutable state of one incoming connection.  The dist_ and node_opts_
references collapse to the three fields the handlers read: our node name,
our cookie and our distribution flags.  The socket handle itself is an
input-output resource; only its presence is tracked. -/
structure InConnection where
  state_ : Nat
  packet_len_size_ : Nat
  socket_ : Bool
  peer_distr_version_ : Option Nat × Option Nat
  peer_flags_ : Nat
  peer_name_ : Option (List Nat)
  my_challenge_ : Option Nat
  dist_name_ : List Nat
  cookie_ : List Nat
  dflags_ : Nat
deriving DecidableEq, Repr

namespace InConnection

def DISCONNECTED : Nat := 0

def RECV_NAME : Nat := 1

def WAIT_CHALLENGE_REPLY : Nat := 2

def CONNECTED : Nat := 3

/-- The constructor: state DISCONNECTED, a 2-byte length header, no peer
information yet. -/
def init (dist_name cookie : List Nat) (dflags : Nat) : InConnection :=
  { state_ := DISCONNECTED
    packet_len_size_ := 2
    socket_ := false
    peer_distr_version_ := (none, none)
    peer_flags_ := 0
    peer_name_ := none
    my_challenge_ := none
    dist_name_ := dist_name
    cookie_ := cookie
    dflags_ := dflags }

/-- Handler invoked when the connection has been accepted. -/
def on_connected (st : InConnection) : InConnection :=
  { st with state_ := RECV_NAME, socket_ := true }

/-- Handler called when the client has disconnected: move to DISCONNECTED
and put a node_disconnected notification in the node inbox.  The length
header width is not touched. -/
def on_connection_lost (st : InConnection) : InConnection × List Effect :=
  ({ st with state_ := DISCONNECTED },
   [Effect.registry (RegistryCall.nodeDisconnected st.peer_name_)])

/-- The static _error helper logs and returns False; the effect carries the
log line. -/
def _error (msg : String) : Effect :=
  Effect.errorLog ("Distribution protocol error: " ++ msg)

/-- Check peer version against our version; pdv is the (MAX, MIN) pair
supported by the peer. -/
def _dist_version_check (pdv : Nat × Nat) : Bool :=
  decide (pdv.1 ≥ DIST_VSN ∧ DIST_VSN ≥ pdv.2)

/-- Send a handshake-time message with a 2 byte length header. -/
def _send_packet2 (content : List Nat) : Effect :=
  Effect.sockSend (be16 content.length ++ content)

/-- Send a connection-time message with a 4 byte length header. -/
def _send_packet4 (content : List Nat) : Effect :=
  Effect.sockSend (be32 content.length ++ content)

/-- The CHALLENGE frame: byte n, our version, our flags, our challenge, our
name, sent 2-byte framed. -/
def _send_challenge (st : InConnection) (my_challenge : Nat) : Effect :=
  _send_packet2
    (110 :: (be16 DIST_VSN ++ be32 st.dflags_ ++ be32 my_challenge ++ st.dist_name_))

/-- md5 of the cookie concatenated with the decimal text of the challenge. -/
def make_digest (md5 : List Nat → List Nat) (challenge : Option Nat)
    (cookie : List Nat) : List Nat :=
  md5 (cookie ++ strBytes challenge)

/-- Compare a received digest with the expected one. -/
def _check_digest (md5 : List Nat → List Nat) (peer_digest : List Nat)
    (challenge : Option Nat) (cookie : List Nat) : Bool :=
  decide (peer_digest = make_digest md5 challenge cookie)

/-- The CHALLENGE_ACK frame: byte a followed by the digest of the peer
challenge with our cookie, sent 2-byte framed. -/
def _send_challenge_ack (md5 : List Nat → List Nat) (peers_challenge : Nat)
    (cookie : List Nat) : Effect :=
  _send_packet2 (97 :: make_digest md5 (some peers_challenge) cookie)

/-- Handle the RECV_NAME command, the first packet in a new connection.
Byte 110 is the character n; bytes 115 111 107 are the text sok.  Reading
data at 0, 1 and 2 raises IndexError on a too short packet.  The source
tests the version check positively and errors when it succeeds. -/
def on_packet_recvname (env : Env) (st : InConnection) (data : List Nat) :
    Except PyExc (Bool × InConnection × List Effect) :=
  match data with
  | [] => Except.error PyExc.indexError
  | d0 :: _ =>
    if d0 ≠ 110 then
      Except.ok (false, st, [_error "Unexpected packet (expecting RECV_NAME)"])
    else
      match data[1]?, data[2]? with
      | some v1, some v2 =>
        if _dist_version_check (v1, v2) then
          Except.ok (false, st, [_error "Dist protocol version have: %s got: %s"])
        else
          let st2 := { st with
            peer_distr_version_ := (some v1, some v2),
            peer_flags_ := u32 ((data.drop 3).take 4) 0,
            peer_name_ := some (data.drop 7),
            my_challenge_ := some env.rand_challenge,
            state_ := WAIT_CHALLENGE_REPLY }
          Except.ok (true, st2,
            [Effect.registry (RegistryCall.nodeConnected (data.drop 7)),
             _send_packet2 [115, 111, 107],
             _send_challenge st2 env.rand_challenge])
      | _, _ => Except.error PyExc.indexError

/-- Handle the CHALLENGE_REPLY packet.  Byte 114 is the character r.  The
digest is checked against our own stored challenge; on success the ack is
sent, the length header switches to 4 bytes and the state to CONNECTED. -/
def on_packet_challengereply (env : Env) (st : InConnection) (data : List Nat) :
    Except PyExc (Bool × InConnection × List Effect) :=
  match data with
  | [] => Except.error PyExc.indexError
  | d0 :: _ =>
    if d0 ≠ 114 then
      Except.ok (false, st, [_error "Unexpected packet (expecting CHALLENGE_REPLY)"])
    else
      let peers_challenge := u32 data 1
      let peer_digest := data.drop 5
      if _check_digest env.md5 peer_digest st.my_challenge_ st.cookie_ then
        Except.ok (true,
          { st with packet_len_size_ := 4, state_ := CONNECTED },
          [_send_challenge_ack env.md5 peers_challenge st.cookie_])
      else
        Except.ok (false, st, [_error "Disallowed node connection (check the cookie)"])

/-- Dispatch an incoming p message with control term and optional payload.
A non-tuple control raises DistributionError; indexing an empty tuple
raises IndexError; unpacking a monitor tuple of wrong arity raises
ValueError; an unrecognised tag is only logged. -/
def on_passthrough_message (control_term : Term) (msg_term : Option Term) :
    Except PyExc (List Effect) :=
  match control_term with
  | Term.tuple elems =>
    match elems with
    | [] => Except.error PyExc.indexError
    | t0 :: _ =>
      match t0 with
      | Term.int n =>
        if n = CONTROL_TERM_SEND ∨ n = CONTROL_TERM_REG_SEND then
          match elems[1]?, elems[3]? with
          | some sender, some receiver =>
            Except.ok [Effect.registry (RegistryCall.send sender receiver msg_term)]
          | _, _ => Except.error PyExc.indexError
        else if n = CONTROL_TERM_MONITOR_P then
          match elems with
          | [_, sender, target, _r] =>
            Except.ok [Effect.registry (RegistryCall.monitorProcess sender target)]
          | _ => Except.error PyExc.valueError
        else if n = CONTROL_TERM_DEMONITOR_P then
          match elems with
          | [_, sender, target, _r] =>
            Except.ok [Effect.registry (RegistryCall.demonitorProcess sender target)]
          | _ => Except.error PyExc.valueError
        else
          Except.ok [Effect.errorLog "Unhandled p message"]
      | _ => Except.ok [Effect.errorLog "Unhandled p message"]
  | _ => Except.error PyExc.distributionError

/-- Handle a packet in the CONNECTED state.  The empty packet is a
keepalive, answered with an empty 4-byte framed packet.  Byte 112 is the
character p: decode the control term, decode the payload when bytes
remain, then dispatch.  Any other first byte is a protocol error. -/
def on_packet_connected (env : Env) (st : InConnection) (data : List Nat) :
    Except PyExc (Bool × InConnection × List Effect) :=
  match data with
  | [] => Except.ok (true, st, [_send_packet4 []])
  | d0 :: rest =>
    if d0 = 112 then
      match env.binary_to_term rest with
      | none => Except.error PyExc.etfError
      | some (control_term, tail) =>
        if tail ≠ [] then
          match env.binary_to_term tail with
          | none => Except.error PyExc.etfError
          | some (msg_term, _t2) =>
            match on_passthrough_message control_term (some msg_term) with
            | Except.error e => Except.error e
            | Except.ok effs => Except.ok (true, st, effs)
        else
          match on_passthrough_message control_term none with
          | Except.error e => Except.error e
          | Except.ok effs => Except.ok (true, st, effs)
    else
      Except.ok (false, st, [_error "Unexpected dist message type: %s"])

/-- Dispatch an incoming distribution packet on the current state.  The
source if chain has no final else and returns None there, which is falsy
at the call site in consume; it is embedded as false with no effects. -/
def on_packet (env : Env) (st : InConnection) (data : List Nat) :
    Except PyExc (Bool × InConnection × List Effect) :=
  if st.state_ = RECV_NAME then on_packet_recvname env st data
  else if st.state_ = WAIT_CHALLENGE_REPLY then on_packet_challengereply env st data
  else if st.state_ = CONNECTED then on_packet_connected env st data
  else Except.ok (false, st, [])

/-- Attempt to consume the first part of data as a packet.  Returns the
unconsumed data, or none to request that the connection be closed after a
protocol error. -/
def consume (env : Env) (st : InConnection) (data : List Nat) :
    Except PyExc (Option (List Nat) × InConnection × List Effect) :=
  if data.length < st.packet_len_size_ then
    Except.ok (some data, st, [])
  else
    let ps := if st.packet_len_size_ = 2 then (u16 data 0, 2) else (u32 data 0, 4)
    if data.length < st.packet_len_size_ + ps.1 then
      Except.ok (some data, st, [])
    else
      match on_packet env st ((data.drop ps.2).take ps.1) with
      | Except.error e => Except.error e
      | Except.ok (ok, st2, effs) =>
        if ok then Except.ok (some (data.drop (ps.2 + ps.1)), st2, effs)
        else Except.ok (none, st2, effs)

/-- A command the registry can put into the connection inbox. -/
inductive InboxMsg where
  | send (dst msg : Term)
  | monitor_p_exit (from_pid to_pid ref reason : Term)
  | other (tag : String)

/-- The control term of an outbound send: (SEND, empty atom, destination). -/
def _control_term_send (dst : Term) : Term :=
  Term.tuple [Term.int CONTROL_TERM_SEND, Term.atom [], dst]

/-- Pack a control message and an optional regular message together and
send them 4-byte framed; byte 112 is the character p. -/
def _control_message (env : Env) (ctrl : Term) (msg : Option Term) : Effect :=
  match msg with
  | none => _send_packet4 (112 :: env.term_to_binary ctrl)
  | some m => _send_packet4 (112 :: (env.term_to_binary ctrl ++ env.term_to_binary m))

/-- Handle one command from the connection inbox. -/
def handle_one_inbox_message (env : Env) (m : InboxMsg) : List Effect :=
  match m with
  | InboxMsg.send dst msg =>
    [_control_message env (_control_term_send dst) (some msg)]
  | InboxMsg.monitor_p_exit from_pid to_pid ref reason =>
    [_control_message env
      (Term.tuple [Term.int CONTROL_TERM_MONITOR_P_EXIT, from_pid, to_pid, ref, reason])
      none]
  | InboxMsg.other _ =>
    [Effect.errorLog "Connection: Unhandled message to InConnection"]

/-- One externally driven operation on a connection, for reachability
statements: the accept callback, one packet given to on_packet, or the
connection-lost callback. -/
inductive Op where
  | connected
  | packet (env : Env) (data : List Nat)
  | lost

/-- Apply one operation; a raised exception leaves the state unchanged
(every handler performs its raising reads before its first mutation). -/
def applyOp (st : InConnection) : Op → InConnection × List Effect
  | Op.connected => (on_connected st, [])
  | Op.packet env data =>
    match on_packet env st data with
    | Except.ok (_, st2, effs) => (st2, effs)
    | Except.error _ => (st, [])
  | Op.lost => on_connection_lost st

/-- Run a sequence of operations from a state, accumulating effects. -/
def runFrom (st : InConnection) : List Op → InConnection × List Effect
  | [] => (st, [])
  | op :: ops =>
    let r := applyOp st op
    let r2 := runFrom r.1 ops
    (r2.1, r.2 ++ r2.2)

/-- Run a sequence of operations from a freshly constructed connection. -/
def run (dist_name cookie : List Nat) (dflags : Nat) (ops : List Op) :
    InConnection × List Effect :=
  runFrom (init dist_name cookie dflags) ops

/-- Concrete environment for witnesses: a constant md5, a codec that never
decodes, challenge 0. -/
def env0 : Env :=
  { md5 := fun _ => List.replicate 16 0
    binary_to_term := fun _ => none
    term_to_binary := fun _ => []
    rand_challenge := 0 }

/-- A concrete SEND control tuple: tag 2, a sender pid, the cookie atom
slot, a receiver pid. -/
def sendCtrlTerm : Term :=
  Term.tuple [Term.int 2, Term.pid [] 0 0 0, Term.atom [], Term.pid [] 1 0 0]

/-- Concrete environment whose codec decodes the byte 1 to a SEND control
tuple with empty remainder. -/
def env1 : Env :=
  { env0 with
    binary_to_term := fun b => if b = [1] then some (sendCtrlTerm, []) else none }

/-- Concrete environment whose codec decodes every input to a bare integer
term with empty remainder. -/
def env2 : Env :=
  { env0 with binary_to_term := fun _ => some (Term.int 42, []) }

/-- Decode table for non-tuple controls with trailing bytes: byte 5 decodes
to a non-tuple control followed by the byte 6, which itself decodes to an
atom; byte 8 decodes to a non-tuple control followed by the byte 7, which
is malformed for this codec. -/
def decode3 (b : List Nat) : Option (Term × List Nat) :=
  if b = [5] then some (Term.int 42, [6])
  else if b = [6] then some (Term.atom [], [])
  else if b = [8] then some (Term.int 42, [7])
  else none

/-- Concrete environment using the decode3 table. -/
def env3 : Env := { env0 with binary_to_term := decode3 }

/-- A fresh connection (empty name, empty cookie, zero flags) right after
on_connected. -/
def stRecv : InConnection := on_connected (init [] [] 0)

/-- The same connection moved to WAIT_CHALLENGE_REPLY with challenge 0. -/
def stWait : InConnection :=
  { stRecv with state_ := WAIT_CHALLENGE_REPLY, my_challenge_ := some 0 }

/-- The same connection in the CONNECTED state. -/
def stConn : InConnection :=
  { stWait with state_ := CONNECTED, packet_len_size_ := 4 }

/-- The state reached from stRecv by a NAME packet whose advertised pair is
(9, 8) and whose flags and name bytes are empty. -/
def stAccept98 : InConnection :=
  { stRecv with
    peer_distr_version_ := (some 9, some 8),
    peer_name_ := some [],
    my_challenge_ := some 0,
    state_ := WAIT_CHALLENGE_REPLY }

/-- A NAME frame payload advertising the byte pair (0, 5), zero flags and an
empty peer name. -/
def nameFrame : List Nat := [110, 0, 5, 0, 0, 0, 0]

/-- A CHALLENGE_REPLY frame payload: byte r, peer challenge 0, and the
16-byte digest that env0 assigns to every input. -/
def replyFrame : List Nat := 114 :: (be32 0 ++ List.replicate 16 0)

/-- The width invariant that actually holds of every reachable connection
state: the length header width is 2 or 4, and it is 4 whenever the state is
CONNECTED.  The converse direction of the specified equivalence fails
because on_connection_lost keeps the 4-byte width, see the C2
counterexample. -/
def widthInv (st : InConnection) : Prop :=
  (st.packet_len_size_ = 2 ∨ st.packet_len_size_ = 4) ∧
  (st.state_ = CONNECTED → st.packet_len_size_ = 4)

/-- Reading a 32-bit big-endian field back at offset 1, behind one leading
byte, recovers the encoded value. -/
theorem u32_at1_be32 (x pc : Nat) (r : List Nat) (h : pc < 4294967296) :
    u32 (x :: (be32 pc ++ r)) 1 = pc := by
  simp [u32, be32, List.foldl]
  omega

/-- Reading a 32-bit big-endian field back at offset 0 recovers the encoded
value. -/
theorem u32_at0_be32 (n : Nat) (r : List Nat) (h : n < 4294967296) :
    u32 (be32 n ++ r) 0 = n := by
  simp [u32, be32, List.foldl]
  omega

/-- Dropping the four bytes of an encoded 32-bit field uncovers the rest. -/
theorem drop4_be32 (n : Nat) (r : List Nat) : (be32 n ++ r).drop 4 = r := by
  simp [be32]

/-- Claim C1, evaluated at the failing input: a NAME frame whose advertised
pair (7, 5) brackets OUR_VSN = 5 is refused - the handler returns false
with only an error log, no sok and no CHALLENGE - while a frame advertising
(9, 8), which does not bracket 5, is accepted with the sok and CHALLENGE
sends.  The sense of _dist_version_check at its call site is inverted. -/
theorem c1_inverted_version_check :
    on_packet_recvname env0 stRecv [110, 7, 5, 0, 0, 0, 0] =
      Except.ok (false, stRecv,
        [_error "Dist protocol version have: %s got: %s"]) ∧
    on_packet_recvname env0 stRecv [110, 9, 8, 0, 0, 0, 0] =
      Except.ok (true, stAccept98,
        [Effect.registry (RegistryCall.nodeConnected []),
         _send_packet2 [115, 111, 107],
         _send_challenge stAccept98 0]) :=
  ⟨rfl, rfl⟩

/-- Claim C3 counterexample: a MONITOR_P_EXIT control tuple received in a p
frame is not delivered through the registry; the handler makes no registry
call, it only logs the message as unhandled and drops it. -/
theorem c3_monitor_p_exit_dropped :
    on_passthrough_message
        (Term.tuple [Term.int 21, Term.pid [] 1 0 0, Term.pid [] 2 0 0,
          Term.ref [] 0 [7], Term.atom [110, 111, 114, 109, 97, 108]]) none =
      Except.ok [Effect.errorLog "Unhandled p message"] := rfl

/-- Claim C3 (amended): every p frame whose control tuple is tagged
MONITOR_P_EXIT is logged as unhandled and dropped, with no registry call;
the handler chain continues (the frame is not a fatal protocol error). -/
theorem c3_amended_unhandled (elems : List Term) (msg_term : Option Term) :
    on_passthrough_message
        (Term.tuple (Term.int CONTROL_TERM_MONITOR_P_EXIT :: elems)) msg_term =
      Except.ok [Effect.errorLog "Unhandled p message"] := rfl

/-- Claim C6 counterexample: losing the connection before the NAME packet
produces a node_disconnected notification, with the peer name still unset,
although no node_connected was ever emitted in the whole run. -/
theorem c6_disconnect_without_connect :
    (run [] [] 0 [Op.connected, Op.lost]).2 =
      [Effect.registry (RegistryCall.nodeDisconnected none)] := rfl

/-- Claim C6 (amended): every invocation of on_connection_lost emits exactly
one node_disconnected notification carrying the stored peer name, possibly
none, whether or not the session was ever established. -/
theorem c6_amended_lost_notification (st : InConnection) :
    (on_connection_lost st).2 =
      [Effect.registry (RegistryCall.nodeDisconnected st.peer_name_)] ∧
    (on_connection_lost st).1.state_ = DISCONNECTED :=
  ⟨rfl, rfl⟩

/-- Claim C9: a send command produces exactly one 4-byte framed packet p
followed by the encoded SEND control tuple (SEND, empty atom, destination)
and the encoded payload; a monitor_p_exit command produces exactly one
4-byte framed packet p followed by the encoded MONITOR_P_EXIT control and
no payload bytes. -/
theorem c9_outbound_frames (env : Env) (dst msg from_pid to_pid ref reason : Term) :
    handle_one_inbox_message env (InboxMsg.send dst msg) =
      [_send_packet4 (112 ::
        (env.term_to_binary
            (Term.tuple [Term.int CONTROL_TERM_SEND, Term.atom [], dst]) ++
          env.term_to_binary msg))] ∧
    handle_one_inbox_message env (InboxMsg.monitor_p_exit from_pid to_pid ref reason) =
      [_send_packet4 (112 ::
        env.term_to_binary
          (Term.tuple [Term.int CONTROL_TERM_MONITOR_P_EXIT,
            from_pid, to_pid, ref, reason]))] :=
  ⟨rfl, rfl⟩

/-- Claim C7: when the buffer holds fewer bytes than the current length
header width, or the declared big-endian length is not yet fully buffered,
consume returns its input unchanged, runs no packet handler and leaves the
connection state unchanged. -/
theorem c7_consume_returns_input (env : Env) (st : InConnection) (data : List Nat)
    (h : data.length < st.packet_len_size_ ∨
         (st.packet_len_size_ = 2 ∧ data.length < 2 + u16 data 0) ∨
         (st.packet_len_size_ = 4 ∧ data.length < 4 + u32 data 0)) :
    consume env st data = Except.ok (some data, st, []) := by
  unfold consume
  rcases h with h | ⟨hw, h⟩ | ⟨hw, h⟩
  · simp [h]
  · rw [hw]
    by_cases hlt : data.length < 2
    · simp [hlt]
    · simp [hlt, h]
  · rw [hw]
    by_cases hlt : data.length < 4
    · simp [hlt]
    · simp [hlt, h]

/-- Witness for claim C7 at a one byte buffer under the 2-byte width. -/
theorem c7_witness :
    consume env0 stRecv [0] = Except.ok (some [0], stRecv, []) :=
  c7_consume_returns_input env0 stRecv [0] (Or.inl (by decide))

/-- Claim C10: in the two pre-Connected receiving states, the packet
handlers read byte 0 of the packet with no length guard, so both the
handler and a consume of a complete zero-length frame end in IndexError
rather than in the boolean close signal: the handlers are partial on the
empty packet. -/
theorem c10_empty_packet (env : Env) (st : InConnection)
    (hstage : st.state_ = RECV_NAME ∨ st.state_ = WAIT_CHALLENGE_REPLY)
    (hw : st.packet_len_size_ = 2) :
    on_packet env st [] = Except.error PyExc.indexError ∧
    consume env st [0, 0] = Except.error PyExc.indexError := by
  have hp : on_packet env st [] = Except.error PyExc.indexError := by
    rcases hstage with h | h <;>
      simp [on_packet, h, RECV_NAME, WAIT_CHALLENGE_REPLY, CONNECTED,
        on_packet_recvname, on_packet_challengereply]
  refine ⟨hp, ?_⟩
  simp [consume, hw, u16, hp]

/-- Witness for claim C10 in the RECV_NAME state. -/
theorem c10_witness :
    on_packet env0 stRecv [] = Except.error PyExc.indexError ∧
    consume env0 stRecv [0, 0] = Except.error PyExc.indexError :=
  c10_empty_packet env0 stRecv (Or.inl rfl) rfl

/-- Claim C5: a CHALLENGE_REPLY carrying peer challenge pc and a 16-byte
digest is verified against the digest of our own stored challenge with our
cookie; on mismatch the handler fails the connection with no ack sent, and
on match it sends exactly one 2-byte framed ack packet, byte a followed by
the digest of the peer challenge with our cookie, and moves to CONNECTED
with the 4-byte width. -/
theorem c5_challengereply_auth (env : Env) (st : InConnection) (pc mc : Nat)
    (dg : List Nat)
    (hstage : st.state_ = WAIT_CHALLENGE_REPLY)
    (hch : st.my_challenge_ = some mc)
    (hpc : pc < 4294967296)
    (hdg : dg.length = 16) :
    (dg ≠ make_digest env.md5 (some mc) st.cookie_ →
      on_packet env st (114 :: (be32 pc ++ dg)) =
        Except.ok (false, st,
          [_error "Disallowed node connection (check the cookie)"])) ∧
    (dg = make_digest env.md5 (some mc) st.cookie_ →
      on_packet env st (114 :: (be32 pc ++ dg)) =
        Except.ok (true, { st with packet_len_size_ := 4, state_ := CONNECTED },
          [_send_challenge_ack env.md5 pc st.cookie_])) := by
  have hu : u32 (114 :: (be32 pc ++ dg)) 1 = pc := u32_at1_be32 114 pc dg hpc
  constructor
  · intro hne
    simp [on_packet, hstage, RECV_NAME, WAIT_CHALLENGE_REPLY,
      on_packet_challengereply, drop4_be32, hu, _check_digest, hch, hne]
  · intro heq
    subst heq
    simp [on_packet, hstage, RECV_NAME, WAIT_CHALLENGE_REPLY,
      on_packet_challengereply, drop4_be32, hu, _check_digest, hch]

/-- Witness for claim C5: with the constant md5 of env0, the all-zero digest
matches and the handler sends the ack and connects. -/
theorem c5_witness :
    on_packet env0 stWait (114 :: (be32 0 ++ List.replicate 16 0)) =
      Except.ok (true, { stWait with packet_len_size_ := 4, state_ := CONNECTED },
        [_send_challenge_ack env0.md5 0 stWait.cookie_]) :=
  (c5_challengereply_auth env0 stWait 0 0 (List.replicate 16 0) rfl rfl
      (by decide) (by decide)).2 (by decide)

/-- A SEND or REG_SEND control tuple is dispatched as exactly one registry
send call taking the second element as sender, the fourth as receiver and
the optional payload as message. -/
theorem on_passthrough_send_dispatch (elems : List Term) (n : Int)
    (sender receiver : Term) (msg_term : Option Term)
    (h0 : elems[0]? = some (Term.int n))
    (htag : n = CONTROL_TERM_SEND ∨ n = CONTROL_TERM_REG_SEND)
    (h1 : elems[1]? = some sender)
    (h3 : elems[3]? = some receiver) :
    on_passthrough_message (Term.tuple elems) msg_term =
      Except.ok [Effect.registry (RegistryCall.send sender receiver msg_term)] := by
  cases elems with
  | nil => simp at h0
  | cons e0 etl =>
    simp only [List.getElem?_cons_zero, Option.some.injEq] at h0
    simp only [List.getElem?_cons_succ] at h1 h3
    subst h0
    rcases htag with htag | htag <;> subst htag <;>
      simp [on_passthrough_message, CONTROL_TERM_SEND, CONTROL_TERM_REG_SEND,
        h1, h3]

/-- Claim C8: a Connected-stage p frame whose control decodes to a tuple
tagged SEND or REG_SEND produces exactly one registry send call, with
sender the second element, receiver the fourth, and message the payload
term decoded from the remaining bytes, or none when no bytes remain. -/
theorem c8_send_registry_call (env : Env) (st : InConnection)
    (rest tail : List Nat) (elems : List Term) (n : Int)
    (sender receiver : Term)
    (hstage : st.state_ = CONNECTED)
    (hdec : env.binary_to_term rest = some (Term.tuple elems, tail))
    (h0 : elems[0]? = some (Term.int n))
    (htag : n = CONTROL_TERM_SEND ∨ n = CONTROL_TERM_REG_SEND)
    (h1 : elems[1]? = some sender)
    (h3 : elems[3]? = some receiver) :
    (tail = [] →
      on_packet env st (112 :: rest) =
        Except.ok (true, st,
          [Effect.registry (RegistryCall.send sender receiver none)])) ∧
    (∀ msg tl2, tail ≠ [] → env.binary_to_term tail = some (msg, tl2) →
      on_packet env st (112 :: rest) =
        Except.ok (true, st,
          [Effect.registry (RegistryCall.send sender receiver (some msg))])) := by
  constructor
  · intro htail
    subst htail
    simp [on_packet, hstage, RECV_NAME, WAIT_CHALLENGE_REPLY, CONNECTED,
      on_packet_connected, hdec,
      on_passthrough_send_dispatch elems n sender receiver none h0 htag h1 h3]
  · intro msg tl2 htail hdec2
    simp [on_packet, hstage, RECV_NAME, WAIT_CHALLENGE_REPLY, CONNECTED,
      on_packet_connected, hdec, htail, hdec2,
      on_passthrough_send_dispatch elems n sender receiver (some msg) h0 htag h1 h3]

/-- Witness for claim C8: env1 decodes the frame body to a SEND control with
no payload bytes; exactly one registry send call results. -/
theorem c8_witness :
    on_packet env1 stConn [112, 1] =
      Except.ok (true, stConn,
        [Effect.registry (RegistryCall.send (Term.pid [] 0 0 0)
          (Term.pid [] 1 0 0) none)]) :=
  (c8_send_registry_call env1 stConn [1] [] [Term.int 2, Term.pid [] 0 0 0,
      Term.atom [], Term.pid [] 1 0 0] 2 (Term.pid [] 0 0 0) (Term.pid [] 1 0 0)
      rfl rfl rfl (Or.inl rfl) rfl rfl).1 rfl

/-- Consuming a buffer that holds exactly one complete 4-byte framed packet
runs on_packet on the packet and translates its boolean into the close
signal, propagating any raised exception. -/
theorem consume_exact_frame (env : Env) (st : InConnection) (packet : List Nat)
    (hw : st.packet_len_size_ = 4)
    (hlen : packet.length < 4294967296) :
    consume env st (be32 packet.length ++ packet) =
      (match on_packet env st packet with
       | Except.error e => Except.error e
       | Except.ok (ok, st2, effs) =>
         if ok then Except.ok (some [], st2, effs)
         else Except.ok (none, st2, effs)) := by
  have hL : (be32 packet.length ++ packet).length = 4 + packet.length := by
    simp [be32]; omega
  have hu : u32 (be32 packet.length ++ packet) 0 = packet.length :=
    u32_at0_be32 packet.length packet hlen
  have hb4 : (be32 packet.length).length = 4 := by simp [be32]
  have hp : ((be32 packet.length ++ packet).drop 4).take packet.length = packet := by
    rw [drop4_be32, List.take_length]
  have hd : (be32 packet.length ++ packet).drop (4 + packet.length) = [] := by
    rw [← hb4, List.drop_append, List.drop_length]
  have hge1 : ¬ ((be32 packet.length ++ packet).length < 4) := by rw [hL]; omega
  unfold consume
  rw [hw, if_neg hge1, if_neg (by decide : ¬ ((4 : Nat) = 2)), hu]
  dsimp only
  rw [hL, if_neg (by omega : ¬ (4 + packet.length < 4 + packet.length)), hp, hd]

/-- Claim C4 counterexample: a Connected-stage p frame whose control term
decodes to a non-tuple makes consume end in a raised DistributionError,
not in the boolean close signal. -/
theorem c4_exception_escapes_consume :
    consume env2 stConn [0, 0, 0, 1, 112] =
      Except.error PyExc.distributionError := rfl

/-- Claim C4 (amended): for every Connected-stage p frame whose decoded
control term is not a tuple, the boolean continue protocol is not used: an
exception escapes consume instead of the close signal.  When no bytes
follow the control term, or the following bytes decode to a payload term,
the escaping exception is the DistributionError raised by the dispatcher;
when the following bytes are malformed, the codec error escapes first. -/
theorem c4_amended_raise (env : Env) (st : InConnection) (rest tail : List Nat)
    (ctrl : Term)
    (hstage : st.state_ = CONNECTED)
    (hw : st.packet_len_size_ = 4)
    (hlen : rest.length + 1 < 4294967296)
    (hdec : env.binary_to_term rest = some (ctrl, tail))
    (hnt : ∀ elems, ctrl ≠ Term.tuple elems) :
    (tail = [] →
      consume env st (be32 (rest.length + 1) ++ 112 :: rest) =
        Except.error PyExc.distributionError) ∧
    (∀ msg tl2, tail ≠ [] → env.binary_to_term tail = some (msg, tl2) →
      consume env st (be32 (rest.length + 1) ++ 112 :: rest) =
        Except.error PyExc.distributionError) ∧
    (tail ≠ [] → env.binary_to_term tail = none →
      consume env st (be32 (rest.length + 1) ++ 112 :: rest) =
        Except.error PyExc.etfError) := by
  have hplen : (112 :: rest).length = rest.length + 1 := by simp
  have hframe := consume_exact_frame env st (112 :: rest) hw (by simpa using hlen)
  rw [hplen] at hframe
  have hpass : ∀ m, on_passthrough_message ctrl m =
      Except.error PyExc.distributionError := by
    intro m
    cases ctrl
    case tuple elems => exact absurd rfl (hnt elems)
    all_goals rfl
  refine ⟨?_, ?_, ?_⟩
  · intro htail
    subst htail
    rw [hframe]
    simp [on_packet, hstage, RECV_NAME, WAIT_CHALLENGE_REPLY, CONNECTED,
      on_packet_connected, hdec, hpass]
  · intro msg tl2 htail hdec2
    rw [hframe]
    simp [on_packet, hstage, RECV_NAME, WAIT_CHALLENGE_REPLY, CONNECTED,
      on_packet_connected, hdec, htail, hdec2, hpass]
  · intro htail hdec2
    rw [hframe]
    simp [on_packet, hstage, RECV_NAME, WAIT_CHALLENGE_REPLY, CONNECTED,
      on_packet_connected, hdec, htail, hdec2]

/-- Witness for the amended claim C4 at concrete frames covering a
non-tuple control with a decodable trailing payload and one with malformed
trailing bytes. -/
theorem c4_amended_witness :
    consume env3 stConn (be32 2 ++ [112, 5]) =
      Except.error PyExc.distributionError ∧
    consume env3 stConn (be32 2 ++ [112, 8]) =
      Except.error PyExc.etfError :=
  ⟨(c4_amended_raise env3 stConn [5] [6] (Term.int 42) rfl rfl (by decide) rfl
      (fun elems h => Term.noConfusion h)).2.1 (Term.atom []) [] (by decide) rfl,
   (c4_amended_raise env3 stConn [8] [7] (Term.int 42) rfl rfl (by decide) rfl
      (fun elems h => Term.noConfusion h)).2.2 (by decide) rfl⟩

/-- A successful RECV_NAME dispatch keeps the width and either keeps the
state or moves it to WAIT_CHALLENGE_REPLY. -/
theorem recvname_width {env : Env} {st : InConnection} {data : List Nat}
    {b : Bool} {st2 : InConnection} {effs : List Effect}
    (h : on_packet_recvname env st data = Except.ok (b, st2, effs)) :
    st2.packet_len_size_ = st.packet_len_size_ ∧
    (st2.state_ = st.state_ ∨ st2.state_ = WAIT_CHALLENGE_REPLY) := by
  unfold on_packet_recvname at h
  split at h
  · simp at h
  · split at h
    · simp only [Except.ok.injEq, Prod.mk.injEq] at h
      rw [← h.2.1]
      exact ⟨rfl, Or.inl rfl⟩
    · split at h
      · split at h
        · simp only [Except.ok.injEq, Prod.mk.injEq] at h
          rw [← h.2.1]
          exact ⟨rfl, Or.inl rfl⟩
        · simp only [Except.ok.injEq, Prod.mk.injEq] at h
          rw [← h.2.1]
          exact ⟨rfl, Or.inr rfl⟩
      · simp at h

/-- A successful CHALLENGE_REPLY dispatch either leaves width and state
unchanged or sets width 4 together with state CONNECTED. -/
theorem challengereply_width {env : Env} {st : InConnection} {data : List Nat}
    {b : Bool} {st2 : InConnection} {effs : List Effect}
    (h : on_packet_challengereply env st data = Except.ok (b, st2, effs)) :
    (st2.packet_len_size_ = st.packet_len_size_ ∧ st2.state_ = st.state_) ∨
    (st2.packet_len_size_ = 4 ∧ st2.state_ = CONNECTED) := by
  unfold on_packet_challengereply at h
  split at h
  · simp at h
  · split at h
    · simp only [Except.ok.injEq, Prod.mk.injEq] at h
      rw [← h.2.1]
      exact Or.inl ⟨rfl, rfl⟩
    · dsimp only at h
      split at h
      · simp only [Except.ok.injEq, Prod.mk.injEq] at h
        rw [← h.2.1]
        exact Or.inr ⟨rfl, rfl⟩
      · simp only [Except.ok.injEq, Prod.mk.injEq] at h
        rw [← h.2.1]
        exact Or.inl ⟨rfl, rfl⟩

/-- A successful CONNECTED dispatch never changes the connection state. -/
theorem connected_st2 {env : Env} {st : InConnection} {data : List Nat}
    {b : Bool} {st2 : InConnection} {effs : List Effect}
    (h : on_packet_connected env st data = Except.ok (b, st2, effs)) :
    st2 = st := by
  unfold on_packet_connected at h
  split at h
  · simp only [Except.ok.injEq, Prod.mk.injEq] at h
    exact h.2.1.symm
  · split at h
    · split at h
      · simp at h
      · split at h
        · split at h
          · simp at h
          · split at h
            · simp at h
            · simp only [Except.ok.injEq, Prod.mk.injEq] at h
              exact h.2.1.symm
        · split at h
          · simp at h
          · simp only [Except.ok.injEq, Prod.mk.injEq] at h
            exact h.2.1.symm
    · simp only [Except.ok.injEq, Prod.mk.injEq] at h
      exact h.2.1.symm

/-- Every successful on_packet dispatch preserves the width invariant. -/
theorem on_packet_widthInv {env : Env} {st : InConnection} {data : List Nat}
    {b : Bool} {st2 : InConnection} {effs : List Effect}
    (h : on_packet env st data = Except.ok (b, st2, effs))
    (hw : widthInv st) : widthInv st2 := by
  unfold on_packet at h
  split at h
  · obtain ⟨hpw, hst⟩ := recvname_width h
    refine ⟨hpw ▸ hw.1, fun h3 => ?_⟩
    rcases hst with hst | hst
    · rw [hpw]
      exact hw.2 (hst ▸ h3)
    · rw [hst] at h3
      exact absurd h3 (by simp [WAIT_CHALLENGE_REPLY, CONNECTED])
  · split at h
    · rcases challengereply_width h with ⟨hpw, hst⟩ | ⟨hpw, hst⟩
      · exact ⟨hpw ▸ hw.1, fun h3 => hpw ▸ hw.2 (hst ▸ h3)⟩
      · exact ⟨Or.inr hpw, fun _ => hpw⟩
    · split at h
      · rw [connected_st2 h]
        exact hw
      · simp only [Except.ok.injEq, Prod.mk.injEq] at h
        rw [← h.2.1]
        exact hw

/-- Every operation preserves the width invariant. -/
theorem applyOp_widthInv (st : InConnection) (op : Op)
    (hw : widthInv st) : widthInv (applyOp st op).1 := by
  cases op with
  | connected =>
    refine ⟨hw.1, fun h3 => absurd h3 ?_⟩
    simp [applyOp, on_connected, RECV_NAME, CONNECTED]
  | packet env data =>
    cases hp : on_packet env st data with
    | error e => simpa [applyOp, hp] using hw
    | ok r =>
      obtain ⟨b, st2, effs⟩ := r
      simpa [applyOp, hp] using on_packet_widthInv hp hw
  | lost =>
    refine ⟨hw.1, fun h3 => absurd h3 ?_⟩
    simp [applyOp, on_connection_lost, DISCONNECTED, CONNECTED]

/-- Running any operation sequence preserves the width invariant. -/
theorem runFrom_widthInv (ops : List Op) (st : InConnection) (hw : widthInv st) :
    widthInv (runFrom st ops).1 := by
  induction ops generalizing st with
  | nil => exact hw
  | cons op ops ih =>
    show widthInv (runFrom (applyOp st op).1 ops).1
    exact ih _ (applyOp_widthInv st op hw)

/-- Claim C2 (amended): in every connection state reachable from
construction by any sequence of on_connected, on_packet and
on_connection_lost, the length header width is 2 or 4 and it is 4 whenever
the stage is Connected.  The converse of the specified equivalence fails:
on_connection_lost does not reset the width, so a Disconnected state with
width 4 is reachable after an established session (see the
counterexample). -/
theorem c2_amended_width (dist_name cookie : List Nat) (dflags : Nat)
    (ops : List Op) :
    widthInv (run dist_name cookie dflags ops).1 := by
  refine runFrom_widthInv ops _ ⟨Or.inl rfl, fun h3 => absurd h3 ?_⟩
  simp [init, DISCONNECTED, CONNECTED]

/-- Claim C2 counterexample: after a full successful handshake followed by
on_connection_lost, the reachable state is DISCONNECTED while the length
header width remains 4, refuting width equals 4 iff stage equals Connected
over reachable states. -/
theorem c2_lost_keeps_width4 :
    (run [] [] 0 [Op.connected, Op.packet env0 nameFrame,
        Op.packet env0 replyFrame, Op.lost]).1.state_ = DISCONNECTED ∧
    (run [] [] 0 [Op.connected, Op.packet env0 nameFrame,
        Op.packet env0 replyFrame, Op.lost]).1.packet_len_size_ = 4 :=
  ⟨rfl, rfl⟩

end InConnection

end Pyrlang
